import Mathlib

/-!
Shallow embedding of the persistence layer of the marketplace application
(`src/models.py` and the Alembic migration `src/migrations/versions/4d16c11a51fd_.py`).

Python exceptions are embedded as the error side of `Except PyErr`;
functions that cannot raise keep a plain return type.  SQLAlchemy columns
are nullable by default, so column-typed fields are `Option`-valued.
-/

/-- The kinds of exception raised by the code in `models.py`:
`ValueError` from the `@validates` guards, marshmallow's `ValidationError`
from `validate_schema`, bare `Exception` from the `password_hash` getter,
and Python's `TypeError` from comparing `None` with an `int`. -/
inductive PyErr where
  | valueError : String → PyErr
  | typeError : String → PyErr
  | validationError : String → PyErr
  | exception : String → PyErr
deriving DecidableEq, Repr

/-- Model of a bcrypt password hash (the external `flask_bcrypt` library):
a bcrypt hash records the salt it was generated with together with a digest
that is a function of the salt and the password.  The digest is modelled as
the tagged concatenation of salt and password, which keeps the two defining
properties used by `models.py`: the digest determines the password given
the salt (so `check_password_hash` can re-derive and compare), and the
digest is never equal to the plaintext itself. -/
structure BHash where
  salt : String
  digest : String
deriving DecidableEq, Repr

/-- The digest computed by bcrypt from a salt and a password (model). -/
def bcryptDigest (salt password : String) : String :=
  "$2b$" ++ salt ++ "$" ++ password

/-- `bcrypt.generate_password_hash(password)`: hash the password with a
fresh salt.  The salt, chosen randomly by the library, is passed explicitly
here to make the nondeterminism visible. -/
def generate_password_hash (salt password : String) : BHash :=
  ⟨salt, bcryptDigest salt password⟩

/-- `bcrypt.check_password_hash(pw_hash, candidate)`: re-hash the candidate
with the salt stored in the hash and compare digests. -/
def check_password_hash (h : BHash) (candidate : String) : Bool :=
  h.digest == bcryptDigest h.salt candidate

/-- In-memory state of a `User` row (`models.py` lines 23-49).  Relationship
attributes live in the `Store` model below; only the columns appear here. -/
structure User where
  id : Option Int
  username : Option String
  email : Option String
  hidden_password_hash : Option BHash
  role : Option String
  image : Option String
deriving DecidableEq, Repr

/-- The `password_hash` hybrid-property getter (`models.py` lines 51-53):
it unconditionally raises. -/
def password_hash (_u : User) : Except PyErr BHash :=
  .error (.exception "Password hashes may not be viewed.")

/-- The `password_hash` setter (`models.py` lines 55-58): hash the plaintext
with bcrypt and store only the hash in the `_password_hash` column. -/
def set_password_hash (u : User) (salt password : String) : User :=
  { u with hidden_password_hash := some (generate_password_hash salt password) }

/-- `User.authenticate` (`models.py` lines 60-61): pass the stored column
value straight to `bcrypt.check_password_hash`.  When the column is `NULL`
(no password was ever set) the library raises a `TypeError`, since it
expects a string-like hash; otherwise it returns the boolean comparison. -/
def authenticate (u : User) (password : String) : Except PyErr Bool :=
  match u.hidden_password_hash with
  | none => .error (.typeError "Unicode-objects must be encoded before checking")
  | some h => .ok (check_password_hash h password)

/-- `User.validate_email` (`models.py` lines 63-67): raise `ValueError`
unless the value is non-empty and contains the character `@`
(Python: `if not email or "@" not in email`). -/
def validate_email (email : String) : Except PyErr String :=
  if email.isEmpty || !(email.contains '@') then
    .error (.valueError "Invalid email address format")
  else
    .ok email

/-- Assignment to `User.email`: SQLAlchemy runs the `@validates("email")`
guard on assignment and stores the returned value. -/
def assign_email (u : User) (v : String) : Except PyErr User :=
  (validate_email v).map fun e => { u with email := some e }

/-- Direct assignment to `User.role`: the column has no `@validates` guard
(`models.py` line 30), so assignment always succeeds and stores the value. -/
def assign_role (u : User) (r : String) : User :=
  { u with role := some r }

/-- `User.validate_schema` (`models.py` lines 69-72): marshmallow schema
validation of a structured payload, modelled as an association list.
Raises `ValidationError` when the payload binds the key `"role"` to
anything other than `"Farmer"` or `"customer"`. -/
def validate_schema (data : List (String × String)) : Except PyErr Unit :=
  match data.lookup "role" with
  | some r =>
      if r ≠ "Farmer" ∧ r ≠ "customer" then
        .error (.validationError "Invalid role. Must be either \x22Farmer\x22 or \x22customer\x22")
      else
        .ok ()
  | none => .ok ()

/-- `Reviews.validate_rating` (`models.py` lines 96-100).  The column is
nullable, so the assigned value is an `Option Int`; Python evaluates
`rating < 1` before anything else, and comparing `None` with an `int`
raises `TypeError`, not the validator's `ValueError`. -/
def validate_rating (rating : Option Int) : Except PyErr Int :=
  match rating with
  | none => .error (.typeError "not supported between instances of NoneType and int")
  | some r =>
      if r < 1 ∨ r > 5 then
        .error (.valueError "Rating must be between 1 and 5")
      else
        .ok r

/-- `Order.validate_quantity_ordered` (`models.py` lines 137-141), with the
same `None` behaviour as `validate_rating`. -/
def validate_quantity_ordered (quantity_ordered : Option Int) : Except PyErr Int :=
  match quantity_ordered with
  | none => .error (.typeError "not supported between instances of NoneType and int")
  | some q =>
      if q ≤ 0 then
        .error (.valueError "Quantity ordered must be greater than 0")
      else
        .ok q

/-- `Payment.validate_payment_amount` (`models.py` lines 168-172), with the
same `None` behaviour as `validate_rating`. -/
def validate_payment_amount (payment_amount : Option Int) : Except PyErr Int :=
  match payment_amount with
  | none => .error (.typeError "not supported between instances of NoneType and int")
  | some p =>
      if p < 0 then
        .error (.valueError "Payment amount cannot be negative")
      else
        .ok p

/-- `ChatMessage.validate_message_text` (`models.py` lines 188-192). -/
def validate_message_text (message_text : String) : Except PyErr String :=
  if message_text.isEmpty then
    .error (.valueError "Message text cannot be empty")
  else
    .ok message_text

/-- Columns of a `Farmer` row (`models.py` lines 75-83). -/
structure Farmer where
  id : Option Int
  farm_name : Option String
  location : Option String
  contact : Option String
  user_id : Option Int
deriving DecidableEq, Repr

/-- A model of a Python `datetime` value, to the precision used by
`Order.serialize`'s format string. -/
structure Datetime where
  year : Nat
  month : Nat
  day : Nat
  hour : Nat
  minute : Nat
  second : Nat
deriving DecidableEq, Repr

/-- Columns of a `Reviews` row (`models.py` lines 86-94). -/
structure Reviews where
  id : Option Int
  customer_id : Option Int
  product_id : Option Int
  rating : Option Int
  comments : Option String
  review_date : Option Datetime
deriving DecidableEq, Repr

/-- Columns of a `Product` row (`models.py` lines 103-113). -/
structure Product where
  id : Option Int
  name : Option String
  price : Option Int
  description : Option String
  quantity_available : Option Int
  category : Option String
  image : Option String
  farmer_id : Option Int
deriving DecidableEq, Repr

/-- Columns of an `Order` row (`models.py` lines 120-131). -/
structure Order where
  id : Option Int
  customer_id : Option Int
  product_id : Option Int
  order_date : Option Datetime
  quantity_ordered : Option Int
  total_price : Option Int
  order_status : Option String
deriving DecidableEq, Repr

/-- Columns of a `Payment` row (`models.py` lines 157-166). -/
structure Payment where
  id : Option Int
  order_id : Option Int
  payment_amount : Option Int
  payment_date : Option Datetime
  payment_method : Option String
  status : Option String
  transaction_id : Option Int
deriving DecidableEq, Repr

/-- Columns of a `ChatMessage` row (`models.py` lines 175-186); `sender_id`
and `receiver_id` are `nullable=False`, hence not `Option`-valued. -/
structure ChatMessage where
  id : Option Int
  sender_id : Int
  receiver_id : Int
  message_text : Option String
  timestamp : Option Datetime
deriving DecidableEq, Repr

/-- The relational store: one list of rows per table declared by the model
layer. -/
structure Store where
  users : List User
  farmers : List Farmer
  products : List Product
  orders : List Order
  reviews : List Reviews
  payments : List Payment
  chat_messages : List ChatMessage
deriving DecidableEq, Repr

/-- Deleting a `User`, following the relationship declarations of
`models.py` lines 33-49: the `sent_messages` and `received_messages`
relationships carry `cascade="all, delete"`, so every `ChatMessage` whose
`sender_id` or `receiver_id` is the deleted user is deleted with it; the
`farmer`, `orders` and `reviews` relationships declare no cascade, so those
rows are untouched at this layer. -/
def delete_user (s : Store) (uid : Int) : Store :=
  { s with
    users := s.users.filter fun u => u.id ≠ some uid
    chat_messages :=
      s.chat_messages.filter fun m => ¬(m.sender_id = uid ∨ m.receiver_id = uid) }

/-- Tables created by `upgrade()` of migration `4d16c11a51fd`, in source
order (`4d16c11a51fd_.py` lines 19-112). -/
def upgradeTables : List String :=
  ["user", "chat_message", "farmer", "product", "order", "reviews",
   "association_order_product", "association_product_review", "payment"]

/-- Tables dropped by `downgrade()` of migration `4d16c11a51fd`, in source
order (`4d16c11a51fd_.py` lines 115-126). -/
def downgradeTables : List String :=
  ["payment", "association_product_review", "association_order_product",
   "reviews", "order", "product", "farmer", "chat_message", "user"]

/-- A Python value as it appears in the dictionary built by
`Order.serialize`. -/
inductive PyVal where
  | pynone : PyVal
  | pyint : Int → PyVal
  | pystr : String → PyVal
deriving DecidableEq, Repr

/-- A nullable integer column as a serialized Python value. -/
def optInt : Option Int → PyVal
  | none => .pynone
  | some n => .pyint n

/-- A nullable string column as a serialized Python value. -/
def optStr : Option String → PyVal
  | none => .pynone
  | some s => .pystr s

/-- Zero-pad a number to two digits, as `strftime` does for
`%m %d %H %M %S`. -/
def pad2 (n : Nat) : String :=
  if n < 10 then "0" ++ toString n else toString n

/-- Zero-pad a number to four digits, as `strftime` does for `%Y`. -/
def pad4 (n : Nat) : String :=
  if n < 10 then "000" ++ toString n
  else if n < 100 then "00" ++ toString n
  else if n < 1000 then "0" ++ toString n
  else toString n

/-- `datetime.strftime("%Y-%m-%d %H:%M:%S")`. -/
def strftimeYmdHMS (d : Datetime) : String :=
  pad4 d.year ++ "-" ++ pad2 d.month ++ "-" ++ pad2 d.day ++ " " ++
    pad2 d.hour ++ ":" ++ pad2 d.minute ++ ":" ++ pad2 d.second

/-- `Order.serialize` (`models.py` lines 143-154): a dictionary, modelled
as an association list in insertion order, holding exactly the five listed
fields; `order_date` is formatted when set (a `datetime` object is always
truthy) and `None` otherwise. -/
def Order.serialize (o : Order) : List (String × PyVal) :=
  [("id", optInt o.id),
   ("order_date",
     match o.order_date with
     | some d => .pystr (strftimeYmdHMS d)
     | none => .pynone),
   ("quantity_ordered", optInt o.quantity_ordered),
   ("total_price", optInt o.total_price),
   ("order_status", optStr o.order_status)]

/-- A concrete freshly-constructed user, for instantiating theorems. -/
def sampleUser : User :=
  { id := none, username := none, email := none,
    hidden_password_hash := none, role := none, image := none }

/-- The bcrypt digest determines the password, given the salt. -/
theorem bcryptDigest_inj (salt p q : String)
    (h : bcryptDigest salt p = bcryptDigest salt q) : p = q := by
  have hd := congrArg String.data h
  simp only [bcryptDigest, String.data_append, List.append_assoc] at hd
  exact String.ext (List.append_cancel_left (List.append_cancel_left
    (List.append_cancel_left hd)))

/-- C1: after setting the password to plaintext `p`, `authenticate p`
returns `true`, and `authenticate q` returns `false` for every `q ≠ p`. -/
theorem authenticate_after_set (u : User) (salt p q : String) :
    authenticate (set_password_hash u salt p) p = Except.ok true ∧
    (q ≠ p → authenticate (set_password_hash u salt p) q = Except.ok false) := by
  constructor
  · simp [authenticate, set_password_hash, generate_password_hash, check_password_hash]
  · intro hne
    simp only [authenticate, set_password_hash, generate_password_hash,
      check_password_hash]
    have : bcryptDigest salt p ≠ bcryptDigest salt q := by
      intro h
      exact hne (bcryptDigest_inj salt p q h).symm
    simp [this]

/-- Witness for C1 at a concrete user, salt and two distinct plaintexts. -/
theorem authenticate_after_set_witness :
    authenticate (set_password_hash sampleUser "s22" "hunter2") "hunter2" = Except.ok true ∧
    authenticate (set_password_hash sampleUser "s22" "hunter2") "letmein" = Except.ok false :=
  ⟨(authenticate_after_set sampleUser "s22" "hunter2" "letmein").1,
   (authenticate_after_set sampleUser "s22" "hunter2" "letmein").2 (by decide)⟩

/-- C2: reading the `password_hash` property always raises, before and after
any write; writing stores exactly the salted bcrypt hash of the plaintext in
the `_password_hash` column, and that stored digest is never the plaintext
itself. -/
theorem password_write_only (u : User) (salt p : String) :
    password_hash u = Except.error (PyErr.exception "Password hashes may not be viewed.") ∧
    password_hash (set_password_hash u salt p) =
      Except.error (PyErr.exception "Password hashes may not be viewed.") ∧
    (set_password_hash u salt p).hidden_password_hash =
      some (generate_password_hash salt p) ∧
    (generate_password_hash salt p).digest ≠ p := by
  refine ⟨rfl, rfl, rfl, fun h => ?_⟩
  have hl := congrArg String.length h
  simp only [generate_password_hash, bcryptDigest, String.length_append] at hl
  have e1 : "$2b$".length = 4 := rfl
  have e2 : "$".length = 1 := rfl
  omega

/-- C3: assigning `v` to `User.email` succeeds and stores `v` exactly when
`v` is non-empty and contains `@`; otherwise it raises the validator's
`ValueError`. -/
theorem assign_email_spec (u : User) (v : String) :
    assign_email u v =
      if v ≠ "" ∧ v.contains '@' = true then Except.ok { u with email := some v }
      else Except.error (PyErr.valueError "Invalid email address format") := by
  by_cases h1 : v = ""
  · subst h1
    rfl
  · have he : v.isEmpty = false := by
      simp [Bool.eq_false_iff, String.isEmpty_iff, h1]
    cases hc : v.contains '@' with
    | false => simp [assign_email, validate_email, he, hc, Except.map, h1]
    | true => simp [assign_email, validate_email, he, hc, Except.map, h1]

/-- C4: role validity is checked only on the structured-payload path:
`validate_schema` fails exactly when the payload binds `"role"` to a value
other than `"Farmer"` or `"customer"`, while direct assignment to
`User.role` is total and stores any string. -/
theorem role_two_paths (u : User) (r : String) (data : List (String × String)) :
    assign_role u r = { u with role := some r } ∧
    (validate_schema data ≠ Except.ok () ↔
      ∃ v, data.lookup "role" = some v ∧ v ≠ "Farmer" ∧ v ≠ "customer") := by
  refine ⟨rfl, ?_⟩
  simp only [validate_schema]
  cases hl : data.lookup "role" with
  | none => simp
  | some v =>
      by_cases hv : v ≠ "Farmer" ∧ v ≠ "customer"
      · simp [hv]
      · simp [hv]

/-- C5: the migration's `downgrade` drops exactly the nine tables that
`upgrade` creates, in exactly the reverse creation order. -/
theorem migration_downgrade_reverse :
    downgradeTables = upgradeTables.reverse ∧
    upgradeTables.length = 9 ∧ upgradeTables.Nodup := by
  decide

/-- C6: deleting a user removes exactly the chat messages it sent or
received, and leaves the farmer, order, review, product and payment tables
untouched. -/
theorem delete_user_cascade (s : Store) (uid : Int) (m : ChatMessage) :
    (m ∈ (delete_user s uid).chat_messages ↔
      m ∈ s.chat_messages ∧ ¬(m.sender_id = uid ∨ m.receiver_id = uid)) ∧
    (delete_user s uid).farmers = s.farmers ∧
    (delete_user s uid).orders = s.orders ∧
    (delete_user s uid).reviews = s.reviews ∧
    (delete_user s uid).products = s.products ∧
    (delete_user s uid).payments = s.payments := by
  refine ⟨?_, rfl, rfl, rfl, rfl, rfl⟩
  simp [delete_user, List.mem_filter]

/-- C7: assigning an integer `r` to `Reviews.rating` succeeds exactly when
`1 ≤ r ≤ 5`; in particular 0 and 6 raise while 1 and 5 succeed. -/
theorem validate_rating_iff (r : Int) :
    (validate_rating (some r) = Except.ok r ↔ 1 ≤ r ∧ r ≤ 5) ∧
    validate_rating (some 0) =
      Except.error (PyErr.valueError "Rating must be between 1 and 5") ∧
    validate_rating (some 6) =
      Except.error (PyErr.valueError "Rating must be between 1 and 5") ∧
    validate_rating (some 1) = Except.ok 1 ∧
    validate_rating (some 5) = Except.ok 5 := by
  refine ⟨?_, by rfl, by rfl, by rfl, by rfl⟩
  simp only [validate_rating]
  by_cases h : r < 1 ∨ r > 5
  · simp [h]
    omega
  · simp [h]
    omega

/-- C8: `Order.serialize` produces exactly the keys `id`, `order_date`,
`quantity_ordered`, `total_price`, `order_status`; `order_date` is the
stored timestamp rendered as `%Y-%m-%d %H:%M:%S` when set and `None`
otherwise; no foreign-key column appears. -/
theorem order_serialize_spec (o : Order) :
    o.serialize.map Prod.fst =
      ["id", "order_date", "quantity_ordered", "total_price", "order_status"] ∧
    o.serialize.lookup "order_date" =
      some (match o.order_date with
            | some d => PyVal.pystr (strftimeYmdHMS d)
            | none => PyVal.pynone) ∧
    o.serialize.lookup "customer_id" = none ∧
    o.serialize.lookup "product_id" = none := by
  obtain ⟨i, c, pr, od, q, t, st⟩ := o
  refine ⟨rfl, ?_, rfl, rfl⟩
  cases od <;> rfl

/-- C9: assigning `None` to `Reviews.rating`, `Order.quantity_ordered` or
`Payment.payment_amount` fails with a `TypeError` from the comparison with
an integer, never with the validators' `ValueError`. -/
theorem none_assignment_type_error :
    validate_rating none =
      Except.error (PyErr.typeError "not supported between instances of NoneType and int") ∧
    validate_quantity_ordered none =
      Except.error (PyErr.typeError "not supported between instances of NoneType and int") ∧
    validate_payment_amount none =
      Except.error (PyErr.typeError "not supported between instances of NoneType and int") ∧
    (∀ m, validate_rating none ≠ Except.error (PyErr.valueError m)) ∧
    (∀ m, validate_quantity_ordered none ≠ Except.error (PyErr.valueError m)) ∧
    (∀ m, validate_payment_amount none ≠ Except.error (PyErr.valueError m)) := by
  refine ⟨rfl, rfl, rfl, ?_, ?_, ?_⟩ <;> intro m <;> simp [validate_rating,
    validate_quantity_ordered, validate_payment_amount]

/-- C10: calling `authenticate` on a user whose stored hash column is
`NULL` raises instead of returning `false`. -/
theorem authenticate_unset_raises (u : User) (p : String)
    (h : u.hidden_password_hash = none) :
    authenticate u p =
      Except.error (PyErr.typeError "Unicode-objects must be encoded before checking") := by
  simp [authenticate, h]

/-- Witness for C10 at a freshly-constructed user. -/
theorem authenticate_unset_raises_witness :
    authenticate sampleUser "anything" =
      Except.error (PyErr.typeError "Unicode-objects must be encoded before checking") :=
  authenticate_unset_raises sampleUser "anything" rfl
